import Mathlib

/-!
Shallow embedding of the orchestration engine of `pptx-generate-agents`
(`backend/agents/orchestration_agent/main.py` together with the data model in
`backend/shared/models/__init__.py` and the store semantics of
`backend/shared/storage/cosmos_client.py`).

Worker calls (`A2AClient.call_agent`) are modelled by an environment value
`WorkerEnv` fixing each worker's reply for one pipeline run.  The durable
store is a `Store` value; besides the current contents of the `slide_jobs`
and `generation_history` containers it carries two observation logs:
`jobWrites`, the sequence of job records handed to `create_item`/`update_item`
(each such record is visible to `GET /jobs/{id}` between writes), and
`agentCalls`, the sequence of worker invocations.  Timestamps
(`created_at` / `updated_at`) are omitted: no verified property mentions them.
-/

namespace PptxGen

/-- Pipeline stages, from `SlideGenerationStatus` in `shared/models`. -/
inductive SlideGenerationStatus
  | PENDING
  | AGENDA_GENERATION
  | AGENDA_APPROVAL
  | INFORMATION_COLLECTION
  | SLIDE_CREATION
  | REVIEW
  | COMPLETED
  | FAILED
deriving DecidableEq, Repr

/-- One agenda section, from `SlideContent` in `shared/models`. -/
structure SlideContent where
  page_number : Nat
  title : String
  content : String
deriving DecidableEq, Repr

/-- The outline produced by the agenda stage, from `SlideAgenda`. -/
structure SlideAgenda where
  slides : List SlideContent
  total_pages : Nat
  estimated_duration : Nat
deriving DecidableEq, Repr

/-- The original generation parameters, from `SlideGenerationRequest`. -/
structure SlideGenerationRequest where
  prompt : String
  reference_urls : List String
  slide_template_id : Option String
  llm_config_id : Option String
  max_slides : Nat
  auto_approval : Bool
  include_images : Bool
  include_tables : Bool
deriving DecidableEq, Repr

/-- Runtime value held by a job's `agenda` attribute.  Pydantic v1 does not
validate attribute assignments, so besides a validated `SlideAgenda` model
instance the attribute can hold the plain dict assigned unvalidated by the
approval handler (`job.agenda = updated_agenda`); the dict's contents are
modelled as the agenda data it carries.  Only a model instance has the
`.dict()` and `.slides` attributes the pipeline accesses. -/
inductive AgendaValue
  | model (ag : SlideAgenda)
  | rawDict (ag : SlideAgenda)
deriving DecidableEq, Repr

/-- The persisted job record, from `SlideGenerationJob`. -/
structure SlideGenerationJob where
  id : String
  user_id : String
  request : SlideGenerationRequest
  status : SlideGenerationStatus
  agenda : Option AgendaValue
  progress : Nat
  current_step : String
  result_blob_url : Option String
  error_message : Option String
deriving DecidableEq, Repr

/-- The completion record, from `GenerationHistory`. -/
structure GenerationHistory where
  id : String
  user_id : String
  job_id : String
  title : String
  slide_count : Nat
  blob_url : String
deriving DecidableEq, Repr

/-- Reply of one worker call: either `success=true` with its (well-typed)
result payload, or `success=false` with the optional `error` string of the
`AgentResponse`. -/
inductive WorkerReply (α : Type)
  | ok (value : α)
  | fail (error : Option String)
deriving DecidableEq, Repr

/-- The environment of one pipeline run: the reply each downstream worker
would give, plus the fresh id used for a history record.  The information
reply and the slide reply carry the payload parts the orchestrator actually
reads (`info_response.result`, forwarded opaquely, and
`slide_response.result["slide_url"]`). -/
structure WorkerEnv where
  agendaReply : WorkerReply SlideAgenda
  infoReply : WorkerReply String
  slideReply : WorkerReply String
  reviewReply : WorkerReply Unit
  historyId : String
deriving DecidableEq, Repr

/-- Durable store plus observation logs (see the file header). -/
structure Store where
  slide_jobs : List SlideGenerationJob
  generation_history : List GenerationHistory
  jobWrites : List SlideGenerationJob
  agentCalls : List String
deriving DecidableEq, Repr

def emptyStore : Store := ⟨[], [], [], []⟩

/-- `cosmos_client.create_item("slide_jobs", ...)`. -/
def createJobItem (s : Store) (j : SlideGenerationJob) : Store :=
  { s with slide_jobs := s.slide_jobs ++ [j], jobWrites := s.jobWrites ++ [j] }

/-- `cosmos_client.read_item("slide_jobs", id, user_id)`: `None` when the
id/partition pair is absent. -/
def readJobItem (s : Store) (item_id user_id : String) : Option SlideGenerationJob :=
  s.slide_jobs.find? (fun j => j.id == item_id && j.user_id == user_id)

/-- `cosmos_client.update_item("slide_jobs", ...)`: replaces the record with
the same id in the caller's partition. -/
def updateJobItem (s : Store) (j : SlideGenerationJob) : Store :=
  { s with
    slide_jobs := s.slide_jobs.map (fun old => if old.id == j.id && old.user_id == j.user_id then j else old),
    jobWrites := s.jobWrites ++ [j] }

/-- `cosmos_client.create_item("generation_history", ...)`. -/
def createHistoryItem (s : Store) (h : GenerationHistory) : Store :=
  { s with generation_history := s.generation_history ++ [h] }

/-- Records one `A2AClient(...).call_agent(...)` invocation, by the logical
agent type sent in the request. -/
def recordCall (s : Store) (agent : String) : Store :=
  { s with agentCalls := s.agentCalls ++ [agent] }

/-- Python `f"... {x}"` rendering of an `Optional[str]`. -/
def pyStrOfOpt : Option String → String
  | none => "None"
  | some t => t

def stepAgendaGen : String := "アジェンダ生成中..."
def stepAwaitApproval : String := "アジェンダ承認待ち..."
def stepInfo : String := "情報収集中..."
def stepSlides : String := "スライド作成中..."
def stepReview : String := "品質チェック中..."
def stepDone : String := "完了"
def stepError : String := "エラーが発生しました"
def untitledTitle : String := "無題"

/-- The `except` blocks of `_process_slide_generation` and
`_continue_after_approval`: mark the job FAILED with `str(e)`. -/
def failJob (j : SlideGenerationJob) (msg : String) : SlideGenerationJob :=
  { j with status := .FAILED, error_message := some msg, current_step := stepError }

/-- Message of the `AttributeError` raised by `job.agenda.dict()` when the
agenda is `None` (Python text abbreviated; no property depends on it). -/
def noneAgendaError : String := "AttributeError: NoneType object has no attribute dict"

/-- Message of the `AttributeError` raised by `job.agenda.dict()` when the
agenda attribute holds the plain dict installed by the approval handler
(Python text abbreviated). -/
def dictAgendaError : String := "AttributeError: dict object has no attribute dict"

/-- Re-validation performed by the `SlideGenerationJob(**job_data)`
constructor when a record is loaded from the store: pydantic coerces a
well-shaped agenda dict back into a `SlideAgenda` model instance. -/
def revalidateAgenda : Option AgendaValue → Option AgendaValue
  | none => none
  | some (.model ag) => some (.model ag)
  | some (.rawDict ag) => some (.model ag)

/-- `OrchestrationExecutor._continue_after_approval`: the pipeline from
information collection to completion.  Returns the final value of the local
`job` object together with the final store.  Building the information
payload accesses `job.agenda.dict()`, which raises `AttributeError` — before
the worker call — both when the agenda is `None` and when it holds the plain
dict installed unvalidated by the approval handler. -/
def continue_after_approval (env : WorkerEnv) (job : SlideGenerationJob) (s : Store) :
    SlideGenerationJob × Store :=
  let job := { job with status := .INFORMATION_COLLECTION, progress := 50, current_step := stepInfo }
  let s := updateJobItem s job
  match job.agenda with
  | none =>
      let job := failJob job noneAgendaError
      (job, updateJobItem s job)
  | some (.rawDict _) =>
      let job := failJob job dictAgendaError
      (job, updateJobItem s job)
  | some (.model ag) =>
    let s := recordCall s "collect_information"
    match env.infoReply with
    | .fail e =>
        let job := failJob job ("Information collection failed: " ++ pyStrOfOpt e)
        (job, updateJobItem s job)
    | .ok _ =>
      let job := { job with status := .SLIDE_CREATION, progress := 75, current_step := stepSlides }
      let s := updateJobItem s job
      let s := recordCall s "create_slides"
      match env.slideReply with
      | .fail e =>
          let job := failJob job ("Slide creation failed: " ++ pyStrOfOpt e)
          (job, updateJobItem s job)
      | .ok slide_url =>
        let job := { job with status := .REVIEW, progress := 90, current_step := stepReview }
        let s := updateJobItem s job
        let s := recordCall s "review_slides"
        let job := { job with
                     status := .COMPLETED
                     progress := 100
                     current_step := stepDone
                     result_blob_url := some slide_url }
        let s := updateJobItem s job
        -- here `job.agenda` is `some (.model ag)`, so the source conditionals
        -- `job.agenda and job.agenda.slides` / `if job.agenda` reduce to tests
        -- on `ag.slides`
        let history : GenerationHistory :=
          { id := env.historyId
            user_id := job.user_id
            job_id := job.id
            title := match ag.slides with
                     | [] => untitledTitle
                     | c :: _ => c.title
            slide_count := ag.slides.length
            blob_url := slide_url }
        (job, createHistoryItem s history)

/-- `OrchestrationExecutor._process_slide_generation`: agenda generation,
then the auto-approval shortcut. -/
def process_slide_generation (env : WorkerEnv) (job : SlideGenerationJob) (s : Store) :
    SlideGenerationJob × Store :=
  let s := recordCall s "generate_agenda"
  match env.agendaReply with
  | .fail e =>
      let job := failJob job ("Agenda generation failed: " ++ pyStrOfOpt e)
      (job, updateJobItem s job)
  | .ok ag =>
      let job := { job with
                   agenda := some (.model ag)
                   status := .AGENDA_APPROVAL
                   progress := 25
                   current_step := stepAwaitApproval }
      let s := updateJobItem s job
      if job.request.auto_approval then continue_after_approval env job s else (job, s)

/-- Result payload of `OrchestrationExecutor.execute`. -/
inductive ExecResult
  | started (job_id : String) (status : SlideGenerationStatus)
  | decided (status : SlideGenerationStatus)
deriving DecidableEq, Repr

/-- `AgentResponse` as returned by the orchestrator itself. -/
structure AgentResponse where
  request_id : String
  success : Bool
  result : Option ExecResult := none
  error : Option String := none
  progress : Nat := 100
deriving DecidableEq, Repr

/-- Payload of an `agenda_approval` request. -/
structure ApprovalPayload where
  job_id : String
  approved : Bool
  agenda : Option SlideAgenda
deriving DecidableEq, Repr

/-- Request-level metadata threaded into the handlers. -/
structure AgentRequestMeta where
  request_id : String
  user_id : String
deriving DecidableEq, Repr

/-- `OrchestrationExecutor._handle_slide_generation`: persists the fresh job
record, then runs the background task (`_process_slide_generation`).  The
response is built before the spawned task has run, so it reports the initial
status. -/
def handle_slide_generation (env : WorkerEnv) (new_job_id : String)
    (req : AgentRequestMeta) (gen_request : SlideGenerationRequest) (s : Store) :
    AgentResponse × Store :=
  let job : SlideGenerationJob :=
    { id := new_job_id, user_id := req.user_id, request := gen_request,
      status := .AGENDA_GENERATION, agenda := none, progress := 0,
      current_step := stepAgendaGen, result_blob_url := none, error_message := none }
  let s := createJobItem s job
  let s := (process_slide_generation env job s).2
  ({ request_id := req.request_id, success := true,
     result := some (.started new_job_id .AGENDA_GENERATION), progress := 10 }, s)

/-- `OrchestrationExecutor._handle_agenda_approval`.  The record read from
the store goes through the `SlideGenerationJob(**job_data)` constructor,
which re-validates the agenda; a caller-supplied edited agenda is then
assigned as a plain dict (`job.agenda = updated_agenda`), bypassing
validation. -/
def handle_agenda_approval (env : WorkerEnv) (req : AgentRequestMeta)
    (payload : ApprovalPayload) (s : Store) : AgentResponse × Store :=
  match readJobItem s payload.job_id req.user_id with
  | none =>
      ({ request_id := req.request_id, success := false, error := some "Job not found" }, s)
  | some job_data =>
    let job := { job_data with agenda := revalidateAgenda job_data.agenda }
    if payload.approved then
      let job := match payload.agenda with
                 | some a => { job with agenda := some (.rawDict a) }
                 | none => job
      let s := (continue_after_approval env job s).2
      ({ request_id := req.request_id, success := true, result := some (.decided job.status) }, s)
    else
      let job := { job with status := .FAILED, error_message := some "User rejected agenda" }
      let s := updateJobItem s job
      ({ request_id := req.request_id, success := true, result := some (.decided job.status) }, s)

/-- Typed view of `AgentRequest.payload`. -/
inductive RequestPayload
  | generation (r : SlideGenerationRequest)
  | approval (p : ApprovalPayload)
deriving DecidableEq, Repr

/-- `AgentRequest` from `shared/models`. -/
structure AgentRequest where
  request_id : String
  agent_type : String
  payload : RequestPayload
  user_id : String
deriving DecidableEq, Repr

/-- Response produced when a handler's pydantic parse of the payload raises,
caught by the outer `except` of `execute` (message text not modelled). -/
def payloadShapeError (req : AgentRequest) : AgentResponse :=
  { request_id := req.request_id, success := false, error := some "validation error" }

/-- `OrchestrationExecutor.execute`: dispatch on `agent_type`. -/
def OrchestrationExecutor.execute (env : WorkerEnv) (new_job_id : String)
    (req : AgentRequest) (s : Store) : AgentResponse × Store :=
  if req.agent_type = "slide_generation" then
    match req.payload with
    | .generation r => handle_slide_generation env new_job_id ⟨req.request_id, req.user_id⟩ r s
    | _ => (payloadShapeError req, s)
  else if req.agent_type = "agenda_approval" then
    match req.payload with
    | .approval p => handle_agenda_approval env ⟨req.request_id, req.user_id⟩ p s
    | _ => (payloadShapeError req, s)
  else
    ({ request_id := req.request_id, success := false,
       error := some ("Unknown agent type: " ++ req.agent_type) }, s)

/-- One gateway-level trigger: a `/generate-slides` call or an
`/approve-agenda` call, with the worker environment its spawned run sees. -/
inductive GatewayEvent
  | startJob (env : WorkerEnv) (new_job_id request_id user_id : String) (r : SlideGenerationRequest)
  | decideApproval (env : WorkerEnv) (request_id user_id : String) (p : ApprovalPayload)
deriving DecidableEq, Repr

/-- Store effect of one gateway event, through `OrchestrationExecutor.execute`. -/
def stepEvent (s : Store) : GatewayEvent → Store
  | .startJob env jid rid uid r =>
      (OrchestrationExecutor.execute env jid ⟨rid, "slide_generation", .generation r, uid⟩ s).2
  | .decideApproval env rid uid p =>
      (OrchestrationExecutor.execute env "" ⟨rid, "agenda_approval", .approval p, uid⟩ s).2

def runEvents : Store → List GatewayEvent → Store
  | s, [] => s
  | s, e :: es => runEvents (stepEvent s e) es

/-- The consistency condition of spec §3 for one persisted record: exactly one
of {result locator set with stage COMPLETED, error detail set with stage
FAILED, neither set with a non-terminal stage}, and never both fields set. -/
def jobRecordConsistent (j : SlideGenerationJob) : Prop :=
  ((j.result_blob_url ≠ none ∧ j.status = .COMPLETED) ∨
   (j.error_message ≠ none ∧ j.status = .FAILED) ∨
   (j.result_blob_url = none ∧ j.error_message = none ∧
    j.status ≠ .COMPLETED ∧ j.status ≠ .FAILED)) ∧
  ¬(j.result_blob_url ≠ none ∧ j.error_message ≠ none)

instance (j : SlideGenerationJob) : Decidable (jobRecordConsistent j) := by
  unfold jobRecordConsistent; infer_instance

/-- The stage-to-percentage agreement that actually holds of every persisted
record: the §4.1 mapping for all stages from AGENDA_APPROVAL on, but the
record persisted at job start carries stage AGENDA_GENERATION with progress 0
(the model default), not the mapped 10; PENDING is never persisted; FAILED
keeps the progress of the stage it failed from. -/
def progressAgrees (j : SlideGenerationJob) : Prop :=
  match j.status with
  | .PENDING => False
  | .AGENDA_GENERATION => j.progress = 0
  | .AGENDA_APPROVAL => j.progress = 25
  | .INFORMATION_COLLECTION => j.progress = 50
  | .SLIDE_CREATION => j.progress = 75
  | .REVIEW => j.progress = 90
  | .COMPLETED => j.progress = 100
  | .FAILED => True

instance (j : SlideGenerationJob) : Decidable (progressAgrees j) := by
  unfold progressAgrees; cases j.status <;> infer_instance

/-- An approval event is clean at a store when the job it addresses (if any)
has neither terminal field set — in particular a job still awaiting approval.
Start events are always clean. -/
def cleanApprovalTarget (s : Store) : GatewayEvent → Bool
  | .startJob .. => true
  | .decideApproval _ _ uid p =>
      match readJobItem s p.job_id uid with
      | none => true
      | some j => j.result_blob_url.isNone && j.error_message.isNone

def fixtureRequest : SlideGenerationRequest :=
  { prompt := "Intro to X", reference_urls := [], slide_template_id := none,
    llm_config_id := none, max_slides := 5, auto_approval := true,
    include_images := true, include_tables := true }

def fixtureRequestManual : SlideGenerationRequest :=
  { fixtureRequest with auto_approval := false }

def fixtureAgenda : SlideAgenda :=
  { slides := [{ page_number := 1, title := "T1", content := "c1" }],
    total_pages := 1, estimated_duration := 5 }

def fixtureEnvOK : WorkerEnv :=
  { agendaReply := .ok fixtureAgenda, infoReply := .ok "info",
    slideReply := .ok "url1", reviewReply := .ok (), historyId := "h1" }

def fixtureEnvInfoFail : WorkerEnv :=
  { fixtureEnvOK with infoReply := .fail (some "boom") }

def fixtureEnvReviewFail : WorkerEnv :=
  { fixtureEnvOK with reviewReply := .fail (some "review down") }

def fixtureJobAwaiting : SlideGenerationJob :=
  { id := "job1", user_id := "u1", request := fixtureRequestManual,
    status := .AGENDA_APPROVAL, agenda := some (.model fixtureAgenda),
    progress := 25, current_step := stepAwaitApproval, result_blob_url := none,
    error_message := none }

def fixtureJobCompleted : SlideGenerationJob :=
  { fixtureJobAwaiting with
    status := .COMPLETED
    progress := 100
    result_blob_url := some "url1" }

def fixtureStoreAwaiting : Store := createJobItem emptyStore fixtureJobAwaiting

def fixtureStoreCompleted : Store := createJobItem emptyStore fixtureJobCompleted

/-- Trace: a single manual-approval start. -/
def fixtureTraceStartManual : List GatewayEvent :=
  [ .startJob fixtureEnvOK "job1" "r1" "u1" fixtureRequestManual ]

/-- Trace: a manual start followed by an ordinary approval of the pending
agenda — a clean run. -/
def fixtureTraceCleanApproved : List GatewayEvent :=
  [ .startJob fixtureEnvOK "job1" "r1" "u1" fixtureRequestManual,
    .decideApproval fixtureEnvOK "r2" "u1" ⟨"job1", true, none⟩ ]

/-- The last record persisted along `fixtureTraceCleanApproved`. -/
def fixtureCleanFinalWrite : SlideGenerationJob :=
  { id := "job1", user_id := "u1", request := fixtureRequestManual,
    status := .COMPLETED, agenda := some (.model fixtureAgenda),
    progress := 100, current_step := stepDone, result_blob_url := some "url1",
    error_message := none }

/-! Projection lemmas for the store operations. -/

@[simp] theorem createJobItem_jobWrites (s : Store) (j : SlideGenerationJob) :
    (createJobItem s j).jobWrites = s.jobWrites ++ [j] := rfl

@[simp] theorem updateJobItem_jobWrites (s : Store) (j : SlideGenerationJob) :
    (updateJobItem s j).jobWrites = s.jobWrites ++ [j] := rfl

@[simp] theorem recordCall_jobWrites (s : Store) (a : String) :
    (recordCall s a).jobWrites = s.jobWrites := rfl

@[simp] theorem createHistoryItem_jobWrites (s : Store) (h : GenerationHistory) :
    (createHistoryItem s h).jobWrites = s.jobWrites := rfl

@[simp] theorem createJobItem_agentCalls (s : Store) (j : SlideGenerationJob) :
    (createJobItem s j).agentCalls = s.agentCalls := rfl

@[simp] theorem updateJobItem_agentCalls (s : Store) (j : SlideGenerationJob) :
    (updateJobItem s j).agentCalls = s.agentCalls := rfl

@[simp] theorem recordCall_agentCalls (s : Store) (a : String) :
    (recordCall s a).agentCalls = s.agentCalls ++ [a] := rfl

@[simp] theorem createHistoryItem_agentCalls (s : Store) (h : GenerationHistory) :
    (createHistoryItem s h).agentCalls = s.agentCalls := rfl

@[simp] theorem createJobItem_history (s : Store) (j : SlideGenerationJob) :
    (createJobItem s j).generation_history = s.generation_history := rfl

@[simp] theorem updateJobItem_history (s : Store) (j : SlideGenerationJob) :
    (updateJobItem s j).generation_history = s.generation_history := rfl

@[simp] theorem recordCall_history (s : Store) (a : String) :
    (recordCall s a).generation_history = s.generation_history := rfl

@[simp] theorem createHistoryItem_history (s : Store) (h : GenerationHistory) :
    (createHistoryItem s h).generation_history = s.generation_history ++ [h] := rfl

/-- C10: a request whose `agent_type` is neither `slide_generation` nor
`agenda_approval` yields a failure response naming the unknown type, with the
incoming request id, and leaves the store untouched. -/
theorem C10_unknown_agent_type_rejected (env : WorkerEnv) (new_job_id : String)
    (req : AgentRequest) (s : Store)
    (h1 : req.agent_type ≠ "slide_generation") (h2 : req.agent_type ≠ "agenda_approval") :
    OrchestrationExecutor.execute env new_job_id req s =
      ({ request_id := req.request_id, success := false,
         error := some ("Unknown agent type: " ++ req.agent_type) }, s) := by
  unfold OrchestrationExecutor.execute
  rw [if_neg h1, if_neg h2]

theorem C10_unknown_agent_type_rejected_witness :
    ("cancel" : String) ≠ "slide_generation" ∧ ("cancel" : String) ≠ "agenda_approval" ∧
    OrchestrationExecutor.execute fixtureEnvOK "j"
        ⟨"r1", "cancel", .approval ⟨"job1", true, none⟩, "u1"⟩ emptyStore =
      ({ request_id := "r1", success := false,
         error := some ("Unknown agent type: " ++ "cancel") }, emptyStore) :=
  ⟨by decide, by decide,
    C10_unknown_agent_type_rejected fixtureEnvOK "j"
      ⟨"r1", "cancel", .approval ⟨"job1", true, none⟩, "u1"⟩ emptyStore
      (by decide) (by decide)⟩

/-- C7: an approval signal for a job id/owner pair absent from the store
fails with the NotFound error and mutates nothing. -/
theorem C7_unknown_job_rejected_without_mutation (env : WorkerEnv)
    (req : AgentRequestMeta) (payload : ApprovalPayload) (s : Store)
    (h : readJobItem s payload.job_id req.user_id = none) :
    handle_agenda_approval env req payload s =
      ({ request_id := req.request_id, success := false,
         error := some "Job not found" }, s) := by
  unfold handle_agenda_approval
  rw [h]

theorem C7_unknown_job_rejected_without_mutation_witness :
    readJobItem emptyStore "missing" "u1" = none ∧
    handle_agenda_approval fixtureEnvOK ⟨"r9", "u1"⟩ ⟨"missing", true, none⟩ emptyStore =
      ({ request_id := "r9", success := false, error := some "Job not found" }, emptyStore) :=
  ⟨rfl, C7_unknown_job_rejected_without_mutation fixtureEnvOK ⟨"r9", "u1"⟩
     ⟨"missing", true, none⟩ emptyStore rfl⟩

/-- C4: for every job present in the store, a rejection signal persists the
job as FAILED with error message exactly `"User rejected agenda"`, whatever
its current stage, and performs no worker call (the store changes by exactly
that one update). -/
theorem C4_rejection_fails_job (env : WorkerEnv) (req : AgentRequestMeta)
    (payload : ApprovalPayload) (s : Store) (job : SlideGenerationJob)
    (hfound : readJobItem s payload.job_id req.user_id = some job)
    (hrej : payload.approved = false) :
    handle_agenda_approval env req payload s =
      ({ request_id := req.request_id, success := true, result := some (.decided .FAILED) },
       updateJobItem s
         { job with
           agenda := revalidateAgenda job.agenda
           status := .FAILED
           error_message := some "User rejected agenda" }) := by
  unfold handle_agenda_approval
  rw [hfound]
  simp only [hrej, if_false, Bool.false_eq_true]

theorem C4_rejection_fails_job_witness :
    readJobItem fixtureStoreCompleted "job1" "u1" = some fixtureJobCompleted ∧
    handle_agenda_approval fixtureEnvOK ⟨"r2", "u1"⟩ ⟨"job1", false, none⟩ fixtureStoreCompleted =
      ({ request_id := "r2", success := true, result := some (.decided .FAILED) },
       updateJobItem fixtureStoreCompleted
         { fixtureJobCompleted with
           agenda := revalidateAgenda fixtureJobCompleted.agenda
           status := .FAILED
           error_message := some "User rejected agenda" }) :=
  ⟨by decide,
    C4_rejection_fails_job fixtureEnvOK ⟨"r2", "u1"⟩ ⟨"job1", false, none⟩
      fixtureStoreCompleted fixtureJobCompleted (by decide) rfl⟩

/-- C6: once information collection and slide creation succeed, the job ends
COMPLETED with the artifact locator set, whatever the review worker replies
(the review reply is never inspected). -/
theorem C6_review_outcome_never_fails_job (env : WorkerEnv)
    (job : SlideGenerationJob) (s : Store) (ag : SlideAgenda) (info slide_url : String)
    (hag : job.agenda = some (.model ag)) (hinfo : env.infoReply = .ok info)
    (hslide : env.slideReply = .ok slide_url) :
    (continue_after_approval env job s).1.status = .COMPLETED ∧
    (continue_after_approval env job s).1.result_blob_url = some slide_url := by
  unfold continue_after_approval
  simp [hag, hinfo, hslide]

theorem C6_review_outcome_never_fails_job_witness :
    fixtureJobAwaiting.agenda = some (.model fixtureAgenda) ∧
    fixtureEnvReviewFail.infoReply = .ok "info" ∧
    fixtureEnvReviewFail.slideReply = .ok "url1" ∧
    fixtureEnvReviewFail.reviewReply = .fail (some "review down") ∧
    (continue_after_approval fixtureEnvReviewFail fixtureJobAwaiting emptyStore).1.status = .COMPLETED ∧
    (continue_after_approval fixtureEnvReviewFail fixtureJobAwaiting emptyStore).1.result_blob_url = some "url1" := by
  have h := C6_review_outcome_never_fails_job fixtureEnvReviewFail fixtureJobAwaiting
    emptyStore fixtureAgenda "info" "url1" rfl rfl rfl
  exact ⟨rfl, rfl, rfl, rfl, h.1, h.2⟩

/-- C2 counterexample: with the information worker reporting exactly `boom`,
the persisted failure message is the stage-prefixed string, not the worker's
text, so the message is not captured character for character. -/
theorem C2_error_not_verbatim_counterexample :
    fixtureEnvInfoFail.infoReply = .fail (some "boom") ∧
    (continue_after_approval fixtureEnvInfoFail fixtureJobAwaiting emptyStore).1.status = .FAILED ∧
    (continue_after_approval fixtureEnvInfoFail fixtureJobAwaiting emptyStore).1.error_message =
      some "Information collection failed: boom" ∧
    (continue_after_approval fixtureEnvInfoFail fixtureJobAwaiting emptyStore).1.error_message ≠
      some "boom" := by
  decide

/-- C2 (amended): a worker failure at any stage fails the job, with
`error_message` equal to a fixed stage label followed by the worker's
reported error rendered as Python renders it, and no later stage's worker is
invoked — the call log ends at the failing stage. -/
theorem C2_worker_failure_prefix_and_stop (env : WorkerEnv)
    (job : SlideGenerationJob) (s : Store) :
    (∀ e, env.agendaReply = .fail e →
      (process_slide_generation env job s).1.status = .FAILED ∧
      (process_slide_generation env job s).1.error_message =
        some ("Agenda generation failed: " ++ pyStrOfOpt e) ∧
      (process_slide_generation env job s).2.agentCalls =
        s.agentCalls ++ ["generate_agenda"]) ∧
    (∀ e ag, job.agenda = some (.model ag) → env.infoReply = .fail e →
      (continue_after_approval env job s).1.status = .FAILED ∧
      (continue_after_approval env job s).1.error_message =
        some ("Information collection failed: " ++ pyStrOfOpt e) ∧
      (continue_after_approval env job s).2.agentCalls =
        s.agentCalls ++ ["collect_information"]) ∧
    (∀ e ag info, job.agenda = some (.model ag) → env.infoReply = .ok info →
      env.slideReply = .fail e →
      (continue_after_approval env job s).1.status = .FAILED ∧
      (continue_after_approval env job s).1.error_message =
        some ("Slide creation failed: " ++ pyStrOfOpt e) ∧
      (continue_after_approval env job s).2.agentCalls =
        s.agentCalls ++ ["collect_information", "create_slides"]) := by
  refine ⟨?_, ?_, ?_⟩
  · intro e he
    unfold process_slide_generation
    simp [he, failJob]
  · intro e ag hag he
    unfold continue_after_approval
    simp [hag, he, failJob]
  · intro e ag info hag hi he
    unfold continue_after_approval
    simp [hag, hi, he, failJob]

theorem C2_worker_failure_prefix_and_stop_witness :
    (continue_after_approval fixtureEnvInfoFail fixtureJobAwaiting fixtureStoreAwaiting).1.status = .FAILED ∧
    (continue_after_approval fixtureEnvInfoFail fixtureJobAwaiting fixtureStoreAwaiting).1.error_message =
      some ("Information collection failed: " ++ pyStrOfOpt (some "boom")) ∧
    (continue_after_approval fixtureEnvInfoFail fixtureJobAwaiting fixtureStoreAwaiting).2.agentCalls =
      fixtureStoreAwaiting.agentCalls ++ ["collect_information"] :=
  (C2_worker_failure_prefix_and_stop fixtureEnvInfoFail fixtureJobAwaiting
    fixtureStoreAwaiting).2.1 (some "boom") fixtureAgenda rfl rfl

/-- C5: whenever the post-approval pipeline ends COMPLETED, exactly one
history entry is appended, carrying the job's id, the first agenda section's
title (the fixed placeholder when the agenda has no section), the agenda's
section count, and the job's artifact locator. -/
theorem C5_completion_appends_one_history_entry (env : WorkerEnv)
    (job : SlideGenerationJob) (s : Store)
    (h : (continue_after_approval env job s).1.status = .COMPLETED) :
    ∃ ag slide_url, job.agenda = some (.model ag) ∧ env.slideReply = .ok slide_url ∧
      (continue_after_approval env job s).1.result_blob_url = some slide_url ∧
      (continue_after_approval env job s).2.generation_history =
        s.generation_history ++
          [{ id := env.historyId
             user_id := job.user_id
             job_id := job.id
             title := match ag.slides with
                      | [] => untitledTitle
                      | c :: _ => c.title
             slide_count := ag.slides.length
             blob_url := slide_url }] := by
  cases hag : job.agenda with
  | none =>
      unfold continue_after_approval at h
      simp [hag, failJob] at h
  | some av =>
    cases av with
    | rawDict d =>
        unfold continue_after_approval at h
        simp [hag, failJob] at h
    | model ag =>
      cases hi : env.infoReply with
      | fail e =>
          unfold continue_after_approval at h
          simp [hag, hi, failJob] at h
      | ok info =>
          cases hs2 : env.slideReply with
          | fail e =>
              unfold continue_after_approval at h
              simp [hag, hi, hs2, failJob] at h
          | ok slide_url =>
              refine ⟨ag, slide_url, rfl, rfl, ?_, ?_⟩ <;>
                (unfold continue_after_approval; simp [hag, hi, hs2])

theorem C5_completion_appends_one_history_entry_witness :
    (continue_after_approval fixtureEnvOK fixtureJobAwaiting emptyStore).1.status = .COMPLETED ∧
    ∃ ag slide_url, fixtureJobAwaiting.agenda = some (.model ag) ∧
      fixtureEnvOK.slideReply = .ok slide_url ∧
      (continue_after_approval fixtureEnvOK fixtureJobAwaiting emptyStore).1.result_blob_url = some slide_url ∧
      (continue_after_approval fixtureEnvOK fixtureJobAwaiting emptyStore).2.generation_history =
        emptyStore.generation_history ++
          [{ id := fixtureEnvOK.historyId
             user_id := fixtureJobAwaiting.user_id
             job_id := fixtureJobAwaiting.id
             title := match ag.slides with
                      | [] => untitledTitle
                      | c :: _ => c.title
             slide_count := ag.slides.length
             blob_url := slide_url }] :=
  ⟨by decide,
    C5_completion_appends_one_history_entry fixtureEnvOK fixtureJobAwaiting emptyStore
      (by decide)⟩

/-- C9 counterexample: approving a job awaiting approval with an edited
agenda — under an environment in which every worker would succeed — performs
no worker call at all and leaves the job FAILED with the `AttributeError`
message: the pipeline does not re-run from information collection onward. -/
theorem C9_edited_agenda_fails_counterexample :
    (readJobItem (handle_agenda_approval fixtureEnvOK ⟨"r4", "u1"⟩
          ⟨"job1", true, some fixtureAgenda⟩ fixtureStoreAwaiting).2
        "job1" "u1").map (fun j => (j.status, j.error_message)) =
      some (.FAILED, some dictAgendaError) ∧
    (handle_agenda_approval fixtureEnvOK ⟨"r4", "u1"⟩
        ⟨"job1", true, some fixtureAgenda⟩ fixtureStoreAwaiting).2.agentCalls =
      fixtureStoreAwaiting.agentCalls := by
  decide

/-- C9 (amended): an approval decision is accepted for a stored job in any
stage, with a success response and no invalid-state error; a `false`
decision overwrites the job as FAILED; a `true` decision re-enters
`_continue_after_approval` — when no edited agenda is supplied the pipeline
re-runs from information collection onward, but when an edited agenda is
supplied it is installed as an unvalidated plain dict, so the re-run
deterministically fails (AttributeError from `job.agenda.dict()`) before any
worker is invoked. -/
theorem C9_approval_accepted_any_stage (env : WorkerEnv)
    (req : AgentRequestMeta) (payload : ApprovalPayload) (s : Store)
    (job : SlideGenerationJob)
    (hfound : readJobItem s payload.job_id req.user_id = some job) :
    (handle_agenda_approval env req payload s).1.success = true ∧
    (payload.approved = true → payload.agenda = none →
      (handle_agenda_approval env req payload s).2 =
        (continue_after_approval env
          { job with agenda := revalidateAgenda job.agenda } s).2) ∧
    (payload.approved = true → ∀ a, payload.agenda = some a →
      (handle_agenda_approval env req payload s).2 =
        (continue_after_approval env
          { job with agenda := some (.rawDict a) } s).2 ∧
      (continue_after_approval env
        { job with agenda := some (.rawDict a) } s).1.status = .FAILED ∧
      (continue_after_approval env
        { job with agenda := some (.rawDict a) } s).1.error_message =
          some dictAgendaError ∧
      (continue_after_approval env
        { job with agenda := some (.rawDict a) } s).2.agentCalls = s.agentCalls) ∧
    (payload.approved = false →
      (handle_agenda_approval env req payload s).2 =
        updateJobItem s
          { job with
            agenda := revalidateAgenda job.agenda
            status := .FAILED
            error_message := some "User rejected agenda" }) := by
  refine ⟨?_, ?_, ?_, ?_⟩
  · unfold handle_agenda_approval
    rw [hfound]
    cases payload.approved <;> simp
  · intro hap hnoedit
    unfold handle_agenda_approval
    rw [hfound]
    simp [hap, hnoedit]
  · intro hap a hedit
    refine ⟨?_, ?_, ?_, ?_⟩
    · unfold handle_agenda_approval
      rw [hfound]
      simp [hap, hedit]
    all_goals
      unfold continue_after_approval
      simp [failJob]
  · intro hap
    unfold handle_agenda_approval
    rw [hfound]
    simp [hap]

theorem C9_approval_accepted_any_stage_witness :
    readJobItem fixtureStoreCompleted "job1" "u1" = some fixtureJobCompleted ∧
    (handle_agenda_approval fixtureEnvOK ⟨"r3", "u1"⟩
        ⟨"job1", true, some fixtureAgenda⟩ fixtureStoreCompleted).1.success = true ∧
    ((handle_agenda_approval fixtureEnvOK ⟨"r3", "u1"⟩
        ⟨"job1", true, some fixtureAgenda⟩ fixtureStoreCompleted).2 =
      (continue_after_approval fixtureEnvOK
        { fixtureJobCompleted with agenda := some (.rawDict fixtureAgenda) }
        fixtureStoreCompleted).2 ∧
     (continue_after_approval fixtureEnvOK
        { fixtureJobCompleted with agenda := some (.rawDict fixtureAgenda) }
        fixtureStoreCompleted).1.status = .FAILED ∧
     (continue_after_approval fixtureEnvOK
        { fixtureJobCompleted with agenda := some (.rawDict fixtureAgenda) }
        fixtureStoreCompleted).1.error_message = some dictAgendaError ∧
     (continue_after_approval fixtureEnvOK
        { fixtureJobCompleted with agenda := some (.rawDict fixtureAgenda) }
        fixtureStoreCompleted).2.agentCalls = fixtureStoreCompleted.agentCalls) := by
  have h := C9_approval_accepted_any_stage fixtureEnvOK ⟨"r3", "u1"⟩
    ⟨"job1", true, some fixtureAgenda⟩ fixtureStoreCompleted fixtureJobCompleted
    (by decide)
  exact ⟨by decide, h.1, h.2.2.1 rfl fixtureAgenda rfl⟩

/-- Every record persisted by the post-approval pipeline is either an old
write or agrees with the stage/progress table; if additionally the job enters
with neither terminal field set, the record also satisfies the three-way
consistency condition. -/
theorem cap_writes_sound (env : WorkerEnv) (job : SlideGenerationJob) (s : Store) :
    ∀ j ∈ (continue_after_approval env job s).2.jobWrites,
      j ∈ s.jobWrites ∨
      (progressAgrees j ∧
       (job.result_blob_url = none → job.error_message = none →
         jobRecordConsistent j)) := by
  intro j hj
  cases hag : job.agenda with
  | none =>
      unfold continue_after_approval at hj
      simp [hag, failJob, List.mem_append] at hj
      rcases hj with hj | rfl | rfl
      · exact Or.inl hj
      · exact Or.inr ⟨by simp [progressAgrees],
          fun hres herr => by simp [jobRecordConsistent, hres, herr]⟩
      · exact Or.inr ⟨by simp [progressAgrees],
          fun hres herr => by simp [jobRecordConsistent, hres, herr]⟩
  | some av =>
    cases av with
    | rawDict d =>
        unfold continue_after_approval at hj
        simp [hag, failJob, List.mem_append] at hj
        rcases hj with hj | rfl | rfl
        · exact Or.inl hj
        · exact Or.inr ⟨by simp [progressAgrees],
            fun hres herr => by simp [jobRecordConsistent, hres, herr]⟩
        · exact Or.inr ⟨by simp [progressAgrees],
            fun hres herr => by simp [jobRecordConsistent, hres, herr]⟩
    | model ag =>
      cases hi : env.infoReply with
      | fail e =>
          unfold continue_after_approval at hj
          simp [hag, hi, failJob, List.mem_append] at hj
          rcases hj with hj | rfl | rfl
          · exact Or.inl hj
          · exact Or.inr ⟨by simp [progressAgrees],
              fun hres herr => by simp [jobRecordConsistent, hres, herr]⟩
          · exact Or.inr ⟨by simp [progressAgrees],
              fun hres herr => by simp [jobRecordConsistent, hres, herr]⟩
      | ok info =>
          cases hs2 : env.slideReply with
          | fail e =>
              unfold continue_after_approval at hj
              simp [hag, hi, hs2, failJob, List.mem_append] at hj
              rcases hj with hj | rfl | rfl | rfl
              · exact Or.inl hj
              all_goals exact Or.inr ⟨by simp [progressAgrees],
                fun hres herr => by simp [jobRecordConsistent, hres, herr]⟩
          | ok slide_url =>
              unfold continue_after_approval at hj
              simp [hag, hi, hs2, List.mem_append] at hj
              rcases hj with hj | rfl | rfl | rfl | rfl
              · exact Or.inl hj
              all_goals exact Or.inr ⟨by simp [progressAgrees],
                fun hres herr => by simp [jobRecordConsistent, hres, herr]⟩

/-- Same soundness statement for the whole background run started at job
creation. -/
theorem psg_writes_sound (env : WorkerEnv) (job : SlideGenerationJob) (s : Store) :
    ∀ j ∈ (process_slide_generation env job s).2.jobWrites,
      j ∈ s.jobWrites ∨
      (progressAgrees j ∧
       (job.result_blob_url = none → job.error_message = none →
         jobRecordConsistent j)) := by
  intro j hj
  cases hag : env.agendaReply with
  | fail e =>
      unfold process_slide_generation at hj
      simp [hag, failJob, List.mem_append] at hj
      rcases hj with hj | rfl
      · exact Or.inl hj
      · exact Or.inr ⟨by simp [progressAgrees],
          fun hres herr => by simp [jobRecordConsistent, hres, herr]⟩
  | ok ag =>
      cases hauto : job.request.auto_approval with
      | false =>
          unfold process_slide_generation at hj
          simp [hag, hauto, List.mem_append] at hj
          rcases hj with hj | rfl
          · exact Or.inl hj
          · exact Or.inr ⟨by simp [progressAgrees],
              fun hres herr => by simp [jobRecordConsistent, hres, herr]⟩
      | true =>
          unfold process_slide_generation at hj
          simp only [hag, hauto] at hj
          simp at hj
          rcases cap_writes_sound _ _ _ j hj with hmem | hgood
          · simp [List.mem_append] at hmem
            rcases hmem with hmem | rfl
            · exact Or.inl hmem
            · exact Or.inr ⟨by simp [progressAgrees],
                fun hres herr => by simp [jobRecordConsistent, hres, herr]⟩
          · exact Or.inr ⟨hgood.1,
              fun hres herr => hgood.2 (by simpa using hres) (by simpa using herr)⟩

theorem stepEvent_startJob (env : WorkerEnv) (jid rid uid : String)
    (r : SlideGenerationRequest) (s : Store) :
    stepEvent s (.startJob env jid rid uid r) =
      (handle_slide_generation env jid ⟨rid, uid⟩ r s).2 := rfl

theorem stepEvent_decideApproval (env : WorkerEnv) (rid uid : String)
    (p : ApprovalPayload) (s : Store) :
    stepEvent s (.decideApproval env rid uid p) =
      (handle_agenda_approval env ⟨rid, uid⟩ p s).2 := rfl

/-- One gateway event only adds records that agree with the stage/progress
table, and — when the event is clean at the current store — records that
satisfy the three-way consistency condition. -/
theorem step_writes_sound (s : Store) (e : GatewayEvent) :
    ∀ j ∈ (stepEvent s e).jobWrites,
      j ∈ s.jobWrites ∨
      (progressAgrees j ∧
       (cleanApprovalTarget s e = true → jobRecordConsistent j)) := by
  cases e with
  | startJob env jid rid uid r =>
      intro j hj
      rw [stepEvent_startJob] at hj
      simp only [handle_slide_generation] at hj
      rcases psg_writes_sound env _ _ j hj with hmem | hgood
      · simp [List.mem_append] at hmem
        rcases hmem with hmem | rfl
        · exact Or.inl hmem
        · exact Or.inr ⟨by simp [progressAgrees], fun _ => by simp [jobRecordConsistent]⟩
      · exact Or.inr ⟨hgood.1, fun _ => hgood.2 rfl rfl⟩
  | decideApproval env rid uid p =>
      intro j hj
      rw [stepEvent_decideApproval] at hj
      cases hread : readJobItem s p.job_id uid with
      | none =>
          simp [handle_agenda_approval, hread] at hj
          exact Or.inl hj
      | some job =>
          cases hap : p.approved with
          | false =>
              simp [handle_agenda_approval, hread, hap, List.mem_append] at hj
              rcases hj with hj | rfl
              · exact Or.inl hj
              · refine Or.inr ⟨by simp [progressAgrees], fun hclean => ?_⟩
                have hcl : job.result_blob_url = none ∧ job.error_message = none := by
                  simpa [cleanApprovalTarget, hread, Option.isNone_iff_eq_none,
                    Bool.and_eq_true] using hclean
                simp [jobRecordConsistent, hcl.1, hcl.2]
          | true =>
              simp [handle_agenda_approval, hread, hap] at hj
              rcases cap_writes_sound env _ _ j hj with hmem | hgood
              · exact Or.inl hmem
              · refine Or.inr ⟨hgood.1, fun hclean => ?_⟩
                have hcl : job.result_blob_url = none ∧ job.error_message = none := by
                  simpa [cleanApprovalTarget, hread, Option.isNone_iff_eq_none,
                    Bool.and_eq_true] using hclean
                refine hgood.2 ?_ ?_ <;> cases hpa : p.agenda <;>
                  simp [hcl.1, hcl.2]

/-- Along any trace, persisted records only accumulate stage/progress-sound
entries. -/
theorem runEvents_writes_progress (es : List GatewayEvent) : ∀ (s : Store),
    (∀ j ∈ s.jobWrites, progressAgrees j) →
    ∀ j ∈ (runEvents s es).jobWrites, progressAgrees j := by
  induction es with
  | nil => intro s hs j hj; exact hs j hj
  | cons e es ih =>
      intro s hs j hj
      refine ih (stepEvent s e) ?_ j hj
      intro k hk
      rcases step_writes_sound s e k hk with hmem | hgood
      · exact hs k hmem
      · exact hgood.1

/-- C3 counterexample: the very first persisted record of a run — the one
created at job start — carries stage AGENDA_GENERATION with progress 0,
not the mapped 10. -/
theorem C3_initial_record_counterexample :
    ((runEvents emptyStore fixtureTraceStartManual).jobWrites.head?).map
        (fun j => (j.status, j.progress)) =
      some (.AGENDA_GENERATION, 0) ∧ (0 : Nat) ≠ 10 := by
  decide

/-- C3 (amended): every persisted record agrees with the §4.1 mapping for
AGENDA_APPROVAL(25), INFORMATION_COLLECTION(50), SLIDE_CREATION(75),
REVIEW(90) and COMPLETED(100); PENDING is never persisted; but the record
created at job start carries stage AGENDA_GENERATION with progress 0 (the
model default), not the mapped 10, and FAILED records keep the progress of
the stage they failed from. -/
theorem C3_progress_agreement (es : List GatewayEvent) :
    ∀ j ∈ (runEvents emptyStore es).jobWrites, progressAgrees j := by
  refine runEvents_writes_progress es emptyStore ?_
  intro j hj
  simp [emptyStore] at hj

theorem C3_progress_agreement_witness :
    fixtureCleanFinalWrite ∈ (runEvents emptyStore fixtureTraceCleanApproved).jobWrites ∧
    progressAgrees fixtureCleanFinalWrite :=
  ⟨by decide,
    C3_progress_agreement fixtureTraceCleanApproved fixtureCleanFinalWrite (by decide)⟩

end PptxGen
